import Mathlib

/-
Shallow embedding of the `TerminalProfileService` class from
src/vs/workbench/contrib/terminal/browser (the terminal profile
discovery/caching service) together with its two module-level equality
helpers `profilesEqual` and `contributedProfilesEqual`.

The service is single-threaded (cooperative scheduling); its refresh cycle
`_refreshAvailableProfilesNow` is embedded as a pure function from a
service state and an environment of external collaborators (configuration
store, host platform, contribution registry, off-process profile source)
to a new state plus the list of change events fired during the cycle and
the error, if any, propagated to the caller.  Machine integers do not
occur; all numeric state is a call counter (`Nat`).
-/

namespace TerminalProfileService

deriving instance DecidableEq for Except

/-- Operating system of the local host or of the remote environment
(`OperatingSystem` from vs/base/common/platform). -/
inductive OperatingSystem where
  | windows
  | macintosh
  | linux
  deriving DecidableEq, Repr

/-- Shell arguments of a profile: in the source `args` is
`string | string[] | undefined`. -/
inductive ProfileArgs where
  | undef
  | str (s : String)
  | strList (l : List String)
  deriving DecidableEq, Repr

/-- A detected terminal profile (`ITerminalProfile` from
vs/platform/terminal/common/terminal); exactly the fields compared by
`profilesEqual` are modelled. -/
structure ITerminalProfile where
  profileName : String
  path : String
  isDefault : Bool
  isAutoDetected : Option Bool
  args : ProfileArgs
  overrideName : Option Bool
  color : Option String
  icon : Option String
  deriving DecidableEq, Repr

/-- An extension-contributed profile descriptor
(`IExtensionTerminalProfile`); exactly the fields compared by
`contributedProfilesEqual` are modelled. -/
structure IExtensionTerminalProfile where
  extensionIdentifier : String
  id : String
  title : String
  icon : Option String
  color : Option String
  deriving DecidableEq, Repr

/-- A value stored under a profile name in the platform-keyed `profiles.*`
configuration section: either the JavaScript literal `null` (which excludes
a contributed profile) or any non-null value. -/
inductive ConfigEntryValue where
  | nullVal
  | objVal
  deriving DecidableEq, Repr

/-- The part of `IShellLaunchConfig` read by `getContributedDefaultProfile`:
`executable = none` models a launch config whose object does not carry an
`executable` property (the source tests presence with the `in` operator),
and `extHostTerminalId` is the optional correlation id of a terminal
created from the extension host. -/
structure IShellLaunchConfig where
  executable : Option String := Option.none
  extHostTerminalId : Option String := Option.none
  deriving DecidableEq, Repr

/-- The host platform facts consulted by the service: the remote
OS of the remote environment when a remote agent is connected (via `getEnvironment`), the
local OS constants, and the `isWeb` constant. -/
structure HostEnv where
  remoteOS : Option OperatingSystem
  localOS : OperatingSystem
  isWeb : Bool

/-- The configuration store, read through
`IConfigurationService.getValue`: the platform-keyed `profiles.*` object
(as its entry list) and the platform-keyed `defaultProfile.*` string. -/
structure ConfigStore where
  profilesFor : String → List (String × ConfigEntryValue)
  defaultProfileFor : String → Option String

/-- JavaScript truthiness of a `string | undefined` value: `undefined` and
the empty string are falsy. -/
def jsFalsyStr : Option String → Bool
  | Option.none => true
  | Option.some s => s == ""

/-- Modelled from the spec: `equals` from vs/base/common/arrays (not among
the reviewed sources) — "compute structural equality against the previous
snapshot": equal lengths and pairwise item equality under the given item
comparator. -/
def listEquals (eq : α → α → Bool) : List α → List α → Bool
  | [], [] => true
  | a :: as, b :: bs => eq a b && listEquals eq as bs
  | _, _ => false

/-- Modelled from the spec: `equals` applied to a possibly-undefined
previous snapshot (`this._availableProfiles` starts out undefined); an
undefined previous snapshot compares unequal to every freshly computed
list. -/
def optListEquals (eq : α → α → Bool) (xs : List α) : Option (List α) → Bool
  | Option.none => false
  | Option.some ys => listEquals eq xs ys

/-- Modelled from the spec: `terminalProfileArgsMatch` from
vs/platform/terminal/common/terminalProfiles (not among the reviewed
sources); the spec states profile equality is structural over the args
field. -/
def terminalProfileArgsMatch (a b : ProfileArgs) : Bool := a == b

/-- Modelled from the spec: `terminalIconsEqual` from
vs/platform/terminal/common/terminalProfiles (not among the reviewed
sources); the spec states profile equality is structural over the icon
field. -/
def terminalIconsEqual (a b : Option String) : Bool := a == b

/-- `profilesEqual` (module-level helper of the service source): field-wise
structural comparison of two detected profiles. -/
def profilesEqual (one other : ITerminalProfile) : Bool :=
  one.profileName == other.profileName &&
  terminalProfileArgsMatch one.args other.args &&
  one.color == other.color &&
  terminalIconsEqual one.icon other.icon &&
  one.isAutoDetected == other.isAutoDetected &&
  one.isDefault == other.isDefault &&
  one.overrideName == other.overrideName &&
  one.path == other.path

/-- `contributedProfilesEqual` (module-level helper of the service source):
field-wise structural comparison of two contributed profiles. -/
def contributedProfilesEqual (one other : IExtensionTerminalProfile) : Bool :=
  one.extensionIdentifier == other.extensionIdentifier &&
  one.color == other.color &&
  one.icon == other.icon &&
  one.id == other.id &&
  one.title == other.title

/-- `_getPlatformKey`: derived from the OS of the remote environment when
connected, else from the local OS constants. -/
def getPlatformKey (host : HostEnv) : String :=
  match host.remoteOS with
  | Option.some os =>
      if os == OperatingSystem.windows then "windows"
      else if os == OperatingSystem.macintosh then "osx"
      else "linux"
  | Option.none =>
      if host.localOS == OperatingSystem.windows then "windows"
      else if host.localOS == OperatingSystem.macintosh then "osx"
      else "linux"

/-- Profile providers are opaque callback objects; a numeric token stands
for the object identity of a provider. -/
abbrev ITerminalProfileProvider := Nat

/-- Lookup in a JavaScript `Map` modelled as an insertion-ordered
association list. -/
def mapGet (m : List (String × α)) (key : String) : Option α :=
  (m.find? (fun e => e.1 == key)).map (fun e => e.2)

/-- `Map.set`: replaces the value in place when the key exists, else
appends the new entry (insertion order preserved). -/
def mapSet (m : List (String × α)) (key : String) (v : α) : List (String × α) :=
  if m.any (fun e => e.1 == key) then
    m.map (fun e => if e.1 == key then (key, v) else e)
  else m ++ [(key, v)]

/-- `Map.delete`: removes the entry with the given key, if present. -/
def mapDelete (m : List (String × α)) (key : String) : List (String × α) :=
  m.filter (fun e => !(e.1 == key))

/-- The mutable fields of the `TerminalProfileService` instance.
`barrierOpen` is the state of the `AutoOpenBarrier` (`_profilesReadyBarrier`),
`webContextKey` the value of the bound web-extension context key, and
`profileProviders` the nested `Map` of registered providers. -/
structure ServiceState where
  ifNoProfilesTryAgain : Bool
  availableProfiles : Option (List ITerminalProfile)
  contributedProfiles : List IExtensionTerminalProfile
  defaultProfileName : Option String
  profileProviders : List (String × List (String × ITerminalProfileProvider))
  barrierOpen : Bool
  webContextKey : Bool
  deriving DecidableEq, Repr

/-- The field values set by the constructor, before the refresh kicked off
at the end of the constructor has committed anything: the one-shot retry
flag is set, no snapshot exists yet (`_availableProfiles` is undefined),
the contributed list is empty, no default name is resolved, no providers
are registered, and the readiness barrier is still closed. -/
def initialState : ServiceState :=
  { ifNoProfilesTryAgain := true
    availableProfiles := Option.none
    contributedProfiles := []
    defaultProfileName := Option.none
    profileProviders := []
    barrierOpen := false
    webContextKey := false }

/-- The external collaborators a refresh cycle reads: configuration store,
host platform, presence of a primary off-process backend, the contribution
registry (`_terminalContributionService.terminalProfiles`), and the
external profile source; `source k` is the result of the k-th
`getProfiles` call since startup (an error models a rejected detection). -/
structure RefreshEnv where
  cfg : ConfigStore
  host : HostEnv
  hasBackend : Bool
  registry : List IExtensionTerminalProfile
  source : Nat → Except String (List ITerminalProfile)

/-- Result of one top-level `_refreshAvailableProfilesNow` invocation: the
persisted service state, the payloads of the `onDidChangeAvailableProfiles`
events fired during the cycle in order, the next source-call index, and
the error propagated to the caller, if any. -/
structure RefreshOutcome where
  state : ServiceState
  events : List (List ITerminalProfile)
  nextCall : Nat
  result : Except String Unit
  deriving DecidableEq, Repr

/-- The profile names nulled out in the platform-keyed `profiles.*`
configuration section (`excludedContributedProfiles` in
`_updateContributedProfiles`). -/
def excludedContributedProfiles (env : RefreshEnv) : List String :=
  ((env.cfg.profilesFor (getPlatformKey env.host)).filter
      (fun e => e.2 == ConfigEntryValue.nullVal)).map (fun e => e.1)

/-- The contribution registry filtered by the excluded names
(`filteredContributedProfiles` in `_updateContributedProfiles`). -/
def filteredContributedProfiles (env : RefreshEnv) : List IExtensionTerminalProfile :=
  env.registry.filter (fun p => !((excludedContributedProfiles env).contains p.title))

/-- `_updateContributedProfiles`: recomputes the filtered contributed list,
reports whether it differs structurally from the stored one, and stores
it. -/
def updateContributedProfiles (env : RefreshEnv) (st : ServiceState) :
    Bool × ServiceState :=
  let filtered := filteredContributedProfiles env
  let contributedProfilesChanged :=
    !(listEquals contributedProfilesEqual filtered st.contributedProfiles)
  (contributedProfilesChanged, { st with contributedProfiles := filtered })

/-- `_detectProfiles`: with no primary off-process backend the current list
(or `[]`) is returned and nothing else happens; otherwise
`_defaultProfileName` is re-read from configuration and the external
source is queried (consuming one source call). -/
def detectProfiles (env : RefreshEnv) (k : Nat) (st : ServiceState) :
    Except String (List ITerminalProfile) × ServiceState × Nat :=
  if env.hasBackend = false then
    (Except.ok (st.availableProfiles.getD []), st, k)
  else
    (env.source k,
     { st with defaultProfileName := env.cfg.defaultProfileFor (getPlatformKey env.host) },
     k + 1)

/-- The diff-and-commit tail of `_refreshAvailableProfilesNow` (the code
after the zero-result retry block): compute the two change flags, and when
either is set, swap in the new snapshot, fire the change event with the
new list, open the readiness barrier and update the web context key. -/
def commitPhase (env : RefreshEnv) (profiles : List ITerminalProfile)
    (st : ServiceState) (events : List (List ITerminalProfile)) (k : Nat) :
    RefreshOutcome :=
  let profilesChanged := !(optListEquals profilesEqual profiles st.availableProfiles)
  let upd := updateContributedProfiles env st
  if profilesChanged || upd.1 then
    { state := { upd.2 with
        availableProfiles := Option.some profiles
        barrierOpen := true
        webContextKey := env.host.isWeb && decide (0 < upd.2.contributedProfiles.length) }
      events := events ++ [profiles]
      nextCall := k
      result := Except.ok () }
  else
    { state := upd.2, events := events, nextCall := k, result := Except.ok () }

/-- The body of `_refreshAvailableProfilesNow`, with the recursive
self-call abstracted as `retry`: detect, then, when detection yielded the
empty list and the one-shot flag is still set, clear the flag and await
the recursive call (whose thrown error, if any, propagates, with all of
its state mutations persisted), and in every non-throwing case fall
through to the diff-and-commit tail. -/
def refreshStep (env : RefreshEnv) (retry : Nat → ServiceState → RefreshOutcome)
    (k : Nat) (st : ServiceState) : RefreshOutcome :=
  match detectProfiles env k st with
  | (Except.error e, st1, k1) =>
      { state := st1, events := [], nextCall := k1, result := Except.error e }
  | (Except.ok profiles, st1, k1) =>
      if profiles.length == 0 && st1.ifNoProfilesTryAgain then
        let r := retry k1 { st1 with ifNoProfilesTryAgain := false }
        match r.result with
        | Except.error e =>
            { state := r.state, events := r.events, nextCall := r.nextCall,
              result := Except.error e }
        | Except.ok _ => commitPhase env profiles r.state r.events r.nextCall
      else
        commitPhase env profiles st1 [] k1

/-- The inner, flag-cleared invocation of `_refreshAvailableProfilesNow`.
It is only ever entered with `_ifNoProfilesTryAgain` already cleared, so
its own retry branch is dead and the stub continuation (which returns its
arguments unchanged) is never invoked; `refreshStep_congr_of_flag_false`
below proves this, and `refreshNow_eq_body` proves that `refreshNow`
satisfies the recursive equation of the source. -/
def refreshNoRetry (env : RefreshEnv) (k : Nat) (st : ServiceState) : RefreshOutcome :=
  refreshStep env
    (fun k1 st1 => { state := st1, events := [], nextCall := k1, result := Except.ok () })
    k st

/-- `_refreshAvailableProfilesNow`: the recursion is bounded by the
one-shot flag (the recursive call runs with the flag cleared and therefore
never recurses again), so the recursive function is its body applied to
the flag-cleared level. -/
def refreshNow (env : RefreshEnv) (k : Nat) (st : ServiceState) : RefreshOutcome :=
  refreshStep env (refreshNoRetry env) k st

/-- `getDefaultProfileName`: throws when `_defaultProfileName` is falsy
(undefined or the empty string), else returns it. -/
def getDefaultProfileName (st : ServiceState) : Except String String :=
  if jsFalsyStr st.defaultProfileName then Except.error "no default profile"
  else Except.ok (st.defaultProfileName.getD "")

/-- `getContributedDefaultProfile`: only when the launch config carries no
truthy extension-host correlation id and no `executable` property, look up
the contributed profile whose title strictly equals the configured
platform default-profile name; otherwise none. -/
def getContributedDefaultProfile (cfg : ConfigStore) (host : HostEnv)
    (st : ServiceState) (shellLaunchConfig : IShellLaunchConfig) :
    Option IExtensionTerminalProfile :=
  if jsFalsyStr shellLaunchConfig.extHostTerminalId &&
      shellLaunchConfig.executable.isNone then
    let key := getPlatformKey host
    let defaultProfileName := cfg.defaultProfileFor key
    st.contributedProfiles.find?
      (fun p => (Option.some p.title : Option String) == defaultProfileName)
  else
    Option.none

/-- Result of a synchronous accessor call: the value returned to the
caller and whether the accessor invoked the throttled
`refreshAvailableProfiles` entry point on the way (the body of that
refresh is asynchronous — it suspends before its first state mutation —
so its effects land only after the accessor has returned). -/
structure AccessorResult (α : Type) where
  value : α
  refreshRequested : Bool
  deriving DecidableEq, Repr

/-- The `availableProfiles` getter: calls `refreshAvailableProfiles()` and
returns `this._availableProfiles || []` (the snapshot as it is before the
just-triggered refresh commits). -/
def availableProfilesGet (st : ServiceState) : AccessorResult (List ITerminalProfile) :=
  { value := st.availableProfiles.getD [], refreshRequested := true }

/-- The `contributedProfiles` getter: returns
`this._contributedProfiles || []` without invoking any refresh. -/
def contributedProfilesGet (st : ServiceState) :
    AccessorResult (List IExtensionTerminalProfile) :=
  { value := st.contributedProfiles, refreshRequested := false }

/-- `registerTerminalProfileProvider`: creates the inner map for the
extension on demand and stores the provider under the provider id. -/
def registerTerminalProfileProvider (extensionIdentifier id : String)
    (profileProvider : ITerminalProfileProvider) (st : ServiceState) : ServiceState :=
  let extMap := (mapGet st.profileProviders extensionIdentifier).getD []
  { st with profileProviders :=
      mapSet st.profileProviders extensionIdentifier (mapSet extMap id profileProvider) }

/-- The disposal closure returned by `registerTerminalProfileProvider`:
`() => this._profileProviders.delete(id)` — it deletes from the OUTER map,
keyed by the inner provider id. -/
def disposeProviderRegistration (id : String) (st : ServiceState) : ServiceState :=
  { st with profileProviders := mapDelete st.profileProviders id }

/-- `getContributedProfileProvider`: two-level lookup by extension
identifier then provider id. -/
def getContributedProfileProvider (extensionIdentifier id : String)
    (st : ServiceState) : Option ITerminalProfileProvider :=
  (mapGet st.profileProviders extensionIdentifier).bind (fun m => mapGet m id)

/-- The state-changing operations that can act on a service instance over
its lifetime: a refresh cycle, the 5-second auto-open timeout of the
`AutoOpenBarrier` firing (modelled from the spec: the barrier opens after
a bounded timeout independently of any refresh), and provider
registration/disposal. -/
inductive ServiceOp where
  | refreshOp (env : RefreshEnv) (k : Nat)
  | barrierTimeoutOp
  | registerProviderOp (extensionIdentifier id : String) (p : ITerminalProfileProvider)
  | disposeProviderOp (id : String)

/-- Apply one operation to the service state (events and errors of a
refresh are dropped here; only the persisted state matters). -/
def applyOp (op : ServiceOp) (st : ServiceState) : ServiceState :=
  match op with
  | ServiceOp.refreshOp env k => (refreshNow env k st).state
  | ServiceOp.barrierTimeoutOp => { st with barrierOpen := true }
  | ServiceOp.registerProviderOp e i p => registerTerminalProfileProvider e i p st
  | ServiceOp.disposeProviderOp i => disposeProviderRegistration i st

/-- Apply a sequence of operations in order. -/
def applyOps (ops : List ServiceOp) (st : ServiceState) : ServiceState :=
  ops.foldl (fun s op => applyOp op s) st

/-- Concrete profile used by the test scenarios. -/
def profileA : ITerminalProfile :=
  { profileName := "ProfileA", path := "/bin/a", isDefault := false,
    isAutoDetected := Option.none, args := ProfileArgs.undef,
    overrideName := Option.none, color := Option.none, icon := Option.none }

/-- Concrete contributed profile titled "bash". -/
def bashContributed : IExtensionTerminalProfile :=
  { extensionIdentifier := "vendor.ext", id := "bash-id", title := "bash",
    icon := Option.none, color := Option.none }

/-- A configuration store with an empty profiles section and no configured
default. -/
def emptyConfig : ConfigStore :=
  { profilesFor := fun _ => [], defaultProfileFor := fun _ => Option.none }

/-- A local linux host (no remote environment, not a web host). -/
def linuxHost : HostEnv :=
  { remoteOS := Option.none, localOS := OperatingSystem.linux, isWeb := false }

/-- Environment of the zero-result-retry scenario: a fresh backend whose
detection returns the empty list on its first call and `[profileA]` on
every later call. -/
def retryScenarioEnv : RefreshEnv :=
  { cfg := emptyConfig, host := linuxHost, hasBackend := true, registry := [],
    source := fun k => if k == 0 then Except.ok [] else Except.ok [profileA] }

/-- Environment with a constant, non-empty detection result (used for the
unchanged-source scenarios). -/
def constProfileEnv : RefreshEnv :=
  { cfg := emptyConfig, host := linuxHost, hasBackend := true, registry := [],
    source := fun _ => Except.ok [profileA] }

def emptyDefaultEnv : RefreshEnv :=
  { cfg := { profilesFor := fun _ => [], defaultProfileFor := fun _ => Option.some "" },
    host := linuxHost, hasBackend := true, registry := [],
    source := fun _ => Except.ok [profileA] }

def bashDefaultConfig : ConfigStore :=
  { profilesFor := fun _ => [], defaultProfileFor := fun _ => Option.some "bash" }

def contributedBashState : ServiceState :=
  { initialState with contributedProfiles := [bashContributed] }

def excludedEnv : RefreshEnv :=
  { cfg := { profilesFor := fun _ => [("bash", ConfigEntryValue.nullVal)],
             defaultProfileFor := fun _ => Option.none },
    host := linuxHost, hasBackend := true, registry := [bashContributed],
    source := fun _ => Except.ok [profileA] }

def failingEnv : RefreshEnv :=
  { cfg := { profilesFor := fun _ => [], defaultProfileFor := fun _ => Option.some "new" },
    host := linuxHost, hasBackend := true, registry := [],
    source := fun _ => Except.error "boom" }

def staleDefaultState : ServiceState :=
  { initialState with defaultProfileName := Option.some "old" }

/-- Environment whose first detection call returns the empty list (entering
the one-shot retry) and whose second (the retry) fails. -/
def retryFailEnv : RefreshEnv :=
  { cfg := { profilesFor := fun _ => [], defaultProfileFor := fun _ => Option.some "new" },
    host := linuxHost, hasBackend := true, registry := [],
    source := fun k => if k == 0 then Except.ok [] else Except.error "boom" }



theorem detectProfiles_state_flag (env : RefreshEnv) (k : Nat) (st : ServiceState) :
    (detectProfiles env k st).2.1.ifNoProfilesTryAgain = st.ifNoProfilesTryAgain := by
  unfold detectProfiles
  split <;> rfl

theorem refreshStep_congr_of_flag_false (env : RefreshEnv)
    (f g : Nat → ServiceState → RefreshOutcome) (k : Nat) (st : ServiceState)
    (h : st.ifNoProfilesTryAgain = false) :
    refreshStep env f k st = refreshStep env g k st := by
  unfold refreshStep detectProfiles
  by_cases hb : env.hasBackend = false
  · simp [hb, h]
  · simp only [hb, if_false]
    cases hs : env.source k with
    | error e => rfl
    | ok profiles => simp [h]

theorem refreshStep_congr (env : RefreshEnv)
    (f g : Nat → ServiceState → RefreshOutcome) (k : Nat) (st : ServiceState)
    (h : ∀ k1 st1, st1.ifNoProfilesTryAgain = false → f k1 st1 = g k1 st1) :
    refreshStep env f k st = refreshStep env g k st := by
  unfold refreshStep
  cases hd : detectProfiles env k st with
  | mk res rest =>
    cases rest with
    | mk st1 k1 =>
      cases res with
      | error e => rfl
      | ok profiles =>
        by_cases hguard : (profiles.length == 0 && st1.ifNoProfilesTryAgain) = true
        · simp only [hguard, if_true]
          rw [h k1 { st1 with ifNoProfilesTryAgain := false } rfl]
        · simp only [hguard]
          simp at hguard
          simp [hguard]

theorem refreshNow_eq_body (env : RefreshEnv) (k : Nat) (st : ServiceState) :
    refreshNow env k st = refreshStep env (refreshNow env) k st := by
  unfold refreshNow
  exact refreshStep_congr env _ _ k st (fun k1 st1 h1 =>
    refreshStep_congr_of_flag_false env _ _ k1 st1 h1)



theorem commitPhase_eq (env : RefreshEnv) (profiles : List ITerminalProfile)
    (st : ServiceState) (events : List (List ITerminalProfile)) (k : Nat) :
    commitPhase env profiles st events k =
      if (!(optListEquals profilesEqual profiles st.availableProfiles) ||
          !(listEquals contributedProfilesEqual (filteredContributedProfiles env)
              st.contributedProfiles)) = true then
        { state := { st with
            contributedProfiles := filteredContributedProfiles env
            availableProfiles := Option.some profiles
            barrierOpen := true
            webContextKey := env.host.isWeb &&
              decide (0 < (filteredContributedProfiles env).length) }
          events := events ++ [profiles]
          nextCall := k
          result := Except.ok () }
      else
        { state := { st with contributedProfiles := filteredContributedProfiles env }
          events := events
          nextCall := k
          result := Except.ok () } := by
  rfl

theorem refreshNow_no_retry (env : RefreshEnv) (k : Nat) (st : ServiceState)
    (L : List ITerminalProfile)
    (hb : env.hasBackend = true) (hs : env.source k = Except.ok L)
    (hnr : L = [] → st.ifNoProfilesTryAgain = false) :
    refreshNow env k st =
      commitPhase env L
        { st with defaultProfileName := env.cfg.defaultProfileFor (getPlatformKey env.host) }
        [] (k + 1) := by
  unfold refreshNow refreshStep detectProfiles
  simp only [hb, hs]
  by_cases hL : L = []
  · simp [hL, hnr hL]
  · have hlen : (L.length == 0) = false := by
      cases L with
      | nil => exact absurd rfl hL
      | cons a as => rfl
    simp [hlen]

theorem refreshNoRetry_ok (env : RefreshEnv) (k : Nat) (st : ServiceState)
    (L : List ITerminalProfile)
    (hb : env.hasBackend = true) (hs : env.source k = Except.ok L)
    (hf : st.ifNoProfilesTryAgain = false) :
    refreshNoRetry env k st =
      commitPhase env L
        { st with defaultProfileName := env.cfg.defaultProfileFor (getPlatformKey env.host) }
        [] (k + 1) := by
  unfold refreshNoRetry refreshStep detectProfiles
  simp [hb, hs, hf]

theorem refreshNow_retry (env : RefreshEnv) (k : Nat) (st : ServiceState)
    (hb : env.hasBackend = true) (hs : env.source k = Except.ok [])
    (hf : st.ifNoProfilesTryAgain = true) :
    refreshNow env k st =
      (fun r =>
        match r.result with
        | Except.error e =>
            { state := r.state, events := r.events, nextCall := r.nextCall,
              result := Except.error e }
        | Except.ok _ => commitPhase env [] r.state r.events r.nextCall)
      (refreshNoRetry env (k + 1)
        { st with
            defaultProfileName := env.cfg.defaultProfileFor (getPlatformKey env.host)
            ifNoProfilesTryAgain := false }) := by
  unfold refreshNow refreshStep detectProfiles
  simp [hb, hs, hf]

theorem refreshNow_detect_error (env : RefreshEnv) (k : Nat) (st : ServiceState)
    (e : String)
    (hb : env.hasBackend = true) (hs : env.source k = Except.error e) :
    refreshNow env k st =
      { state := { st with
          defaultProfileName := env.cfg.defaultProfileFor (getPlatformKey env.host) }
        events := []
        nextCall := k + 1
        result := Except.error e } := by
  unfold refreshNow refreshStep detectProfiles
  simp [hb, hs]

theorem commitPhase_result (env : RefreshEnv) (profiles : List ITerminalProfile)
    (st : ServiceState) (events : List (List ITerminalProfile)) (k : Nat) :
    (commitPhase env profiles st events k).result = Except.ok () := by
  rw [commitPhase_eq]
  split <;> rfl

theorem refreshNow_retry_error (env : RefreshEnv) (k : Nat) (st : ServiceState)
    (e : String)
    (hb : env.hasBackend = true) (hs : env.source k = Except.ok [])
    (hf : st.ifNoProfilesTryAgain = true) (hs1 : env.source (k + 1) = Except.error e) :
    refreshNow env k st =
      { state := { st with
          defaultProfileName := env.cfg.defaultProfileFor (getPlatformKey env.host)
          ifNoProfilesTryAgain := false }
        events := []
        nextCall := k + 2
        result := Except.error e } := by
  rw [refreshNow_retry env k st hb hs hf]
  unfold refreshNoRetry refreshStep detectProfiles
  simp [hb, hs1]

theorem refreshNow_no_backend_ok (env : RefreshEnv) (k : Nat) (st : ServiceState)
    (hb : env.hasBackend = false) :
    (refreshNow env k st).result = Except.ok () := by
  unfold refreshNow refreshStep detectProfiles
  simp only [hb, if_true, if_pos rfl]
  by_cases hg : ((st.availableProfiles.getD []).length == 0 &&
      st.ifNoProfilesTryAgain) = true
  · simp only [hg, if_true]
    unfold refreshNoRetry refreshStep detectProfiles
    simp [hb, commitPhase_result]
  · simp only [Bool.not_eq_true] at hg
    simp [hg, commitPhase_result]

theorem profilesEqual_refl (p : ITerminalProfile) : profilesEqual p p = true := by
  simp [profilesEqual, terminalProfileArgsMatch, terminalIconsEqual]

theorem contributedProfilesEqual_refl (p : IExtensionTerminalProfile) :
    contributedProfilesEqual p p = true := by
  simp [contributedProfilesEqual]

theorem listEquals_refl (eq : α → α → Bool) (h : ∀ a, eq a a = true) (l : List α) :
    listEquals eq l l = true := by
  induction l with
  | nil => rfl
  | cons a as ih => simp [listEquals, h a, ih]

theorem listEquals_nil_left (eq : α → α → Bool) (ys : List α) :
    listEquals eq [] ys = true ↔ ys = [] := by
  cases ys <;> simp [listEquals]



theorem refresh_events_iff (env : RefreshEnv) (k : Nat) (st : ServiceState)
    (L : List ITerminalProfile)
    (hb : env.hasBackend = true) (hs : env.source k = Except.ok L)
    (hnr : L = [] → st.ifNoProfilesTryAgain = false) :
    (refreshNow env k st).events ≠ [] ↔
      (optListEquals profilesEqual L st.availableProfiles = false ∨
       listEquals contributedProfilesEqual (filteredContributedProfiles env)
         st.contributedProfiles = false) := by
  rw [refreshNow_no_retry env k st L hb hs hnr, commitPhase_eq]
  by_cases hA : optListEquals profilesEqual L st.availableProfiles = true
  · by_cases hB : listEquals contributedProfilesEqual (filteredContributedProfiles env)
        st.contributedProfiles = true
    · simp [hA, hB]
    · simp only [Bool.not_eq_true] at hB
      simp [hA, hB]
  · simp only [Bool.not_eq_true] at hA
    simp [hA]



set_option maxHeartbeats 1000000

theorem refresh_quiet_of_unchanged (env : RefreshEnv) (k : Nat) (st : ServiceState)
    (L : List ITerminalProfile)
    (hb : env.hasBackend = true) (hs : env.source k = Except.ok L)
    (hflagq : L = [] → st.ifNoProfilesTryAgain = false)
    (hA : optListEquals profilesEqual L st.availableProfiles = true)
    (hB : listEquals contributedProfilesEqual (filteredContributedProfiles env)
        st.contributedProfiles = true) :
    (refreshNow env k st).events = [] := by
  rw [refreshNow_no_retry env k st L hb hs hflagq, commitPhase_eq]
  simp [hA, hB]

theorem refresh_second_cycle_quiet (env : RefreshEnv) (k : Nat) (st : ServiceState)
    (L : List ITerminalProfile)
    (hb : env.hasBackend = true) (hsrc : ∀ j, env.source j = Except.ok L) :
    (refreshNow env k st).events.length ≤ 1 ∧
    (refreshNow env (refreshNow env k st).nextCall (refreshNow env k st).state).events
      = [] := by
  have hF := listEquals_refl contributedProfilesEqual contributedProfilesEqual_refl
    (filteredContributedProfiles env)
  have hLL := listEquals_refl profilesEqual profilesEqual_refl L
  by_cases hretry : L = [] ∧ st.ifNoProfilesTryAgain = true
  · obtain ⟨hL, hflag⟩ := hretry
    subst hL
    rw [refreshNow_retry env k st hb (hsrc k) hflag,
        refreshNoRetry_ok env (k + 1) _ [] hb (hsrc (k + 1)) rfl,
        commitPhase_eq]
    by_cases hcond : (!(optListEquals profilesEqual [] st.availableProfiles) ||
        !(listEquals contributedProfilesEqual (filteredContributedProfiles env)
            st.contributedProfiles)) = true
    · -- the inner, flag-cleared call commits `[]` and fires; the outer commit is quiet
      simp [hcond]
      rw [commitPhase_eq]
      simp [optListEquals, listEquals, hF]
      apply refresh_quiet_of_unchanged env (k + 2) _ [] hb (hsrc (k + 2))
      · exact fun _ => rfl
      · exact rfl
      · exact hF
    · -- previous snapshot was already `some []`: the inner call stays quiet too
      simp only [Bool.not_eq_true] at hcond
      simp [hcond]
      have hA : optListEquals profilesEqual [] st.availableProfiles = true := by
        rcases Bool.or_eq_false_iff.mp hcond with ⟨h1, h2⟩
        simpa using h1
      rw [commitPhase_eq]
      simp [hA, hF]
      apply refresh_quiet_of_unchanged env (k + 2) _ [] hb (hsrc (k + 2))
      · exact fun _ => rfl
      · exact hA
      · exact hF
  · have hnr : L = [] → st.ifNoProfilesTryAgain = false := by
      intro hL
      cases hfl : st.ifNoProfilesTryAgain with
      | false => rfl
      | true => exact absurd ⟨hL, hfl⟩ hretry
    rw [refreshNow_no_retry env k st L hb (hsrc k) hnr, commitPhase_eq]
    by_cases hcond : (!(optListEquals profilesEqual L st.availableProfiles) ||
        !(listEquals contributedProfilesEqual (filteredContributedProfiles env)
            st.contributedProfiles)) = true
    · simp [hcond]
      apply refresh_quiet_of_unchanged env (k + 1) _ L hb (hsrc (k + 1))
      · exact fun hL => hnr hL
      · exact hLL
      · exact hF
    · simp only [Bool.not_eq_true] at hcond
      simp [hcond]
      have hA : optListEquals profilesEqual L st.availableProfiles = true := by
        rcases Bool.or_eq_false_iff.mp hcond with ⟨h1, h2⟩
        simpa using h1
      apply refresh_quiet_of_unchanged env (k + 1) _ L hb (hsrc (k + 1))
      · exact fun hL => hnr hL
      · exact hA
      · exact hF



theorem detectProfiles_state_barrier (env : RefreshEnv) (k : Nat) (st : ServiceState) :
    (detectProfiles env k st).2.1.barrierOpen = st.barrierOpen := by
  unfold detectProfiles
  split <;> rfl

theorem commitPhase_barrier_mono (env : RefreshEnv) (profiles : List ITerminalProfile)
    (st : ServiceState) (events : List (List ITerminalProfile)) (k : Nat)
    (h : st.barrierOpen = true) :
    (commitPhase env profiles st events k).state.barrierOpen = true := by
  rw [commitPhase_eq]
  split
  · rfl
  · exact h

theorem commitPhase_events_barrier (env : RefreshEnv) (profiles : List ITerminalProfile)
    (st : ServiceState) (events : List (List ITerminalProfile)) (k : Nat)
    (hin : events ≠ [] → st.barrierOpen = true) :
    (commitPhase env profiles st events k).events ≠ [] →
    (commitPhase env profiles st events k).state.barrierOpen = true := by
  rw [commitPhase_eq]
  split
  · intro _
    rfl
  · intro h
    exact hin h

theorem refreshStep_barrier (env : RefreshEnv) (retry : Nat → ServiceState → RefreshOutcome)
    (k : Nat) (st : ServiceState)
    (hmono : ∀ k1 st1, st1.barrierOpen = true → (retry k1 st1).state.barrierOpen = true)
    (hev : ∀ k1 st1, (retry k1 st1).events ≠ [] → (retry k1 st1).state.barrierOpen = true) :
    (st.barrierOpen = true → (refreshStep env retry k st).state.barrierOpen = true) ∧
    ((refreshStep env retry k st).events ≠ [] →
      (refreshStep env retry k st).state.barrierOpen = true) := by
  unfold refreshStep
  cases hd : detectProfiles env k st with
  | mk res rest =>
    obtain ⟨st1, k1⟩ := rest
    have hst1 : st1.barrierOpen = st.barrierOpen := by
      rw [← detectProfiles_state_barrier env k st, hd]
    cases res with
    | error e =>
      constructor
      · intro h
        simpa using hst1.trans h
      · intro h
        simp at h
    | ok profiles =>
      by_cases hguard : (profiles.length == 0 && st1.ifNoProfilesTryAgain) = true
      · simp only [hguard, if_true]
        cases hr : (retry k1 { st1 with ifNoProfilesTryAgain := false }).result with
        | error e =>
          simp only [hr]
          constructor
          · intro h
            exact hmono k1 _ (by simpa using hst1.trans h)
          · intro h
            exact hev k1 _ (by simpa using h)
        | ok u =>
          simp only [hr]
          constructor
          · intro h
            exact commitPhase_barrier_mono env profiles _ _ _
              (hmono k1 _ (by simpa using hst1.trans h))
          · exact commitPhase_events_barrier env profiles _ _ _ (fun h => hev k1 _ h)
      · simp only [Bool.not_eq_true] at hguard
        simp [hguard]
        constructor
        · intro h
          exact commitPhase_barrier_mono env profiles _ _ _ (hst1.trans h)
        · exact commitPhase_events_barrier env profiles _ _ _ (fun h => absurd rfl h)

theorem refreshNoRetry_barrier (env : RefreshEnv) (k : Nat) (st : ServiceState) :
    (st.barrierOpen = true → (refreshNoRetry env k st).state.barrierOpen = true) ∧
    ((refreshNoRetry env k st).events ≠ [] →
      (refreshNoRetry env k st).state.barrierOpen = true) := by
  unfold refreshNoRetry
  exact refreshStep_barrier env _ k st (fun _ _ h => h) (fun _ _ h => absurd rfl h)

theorem refreshNow_barrier (env : RefreshEnv) (k : Nat) (st : ServiceState) :
    (st.barrierOpen = true → (refreshNow env k st).state.barrierOpen = true) ∧
    ((refreshNow env k st).events ≠ [] →
      (refreshNow env k st).state.barrierOpen = true) := by
  unfold refreshNow
  exact refreshStep_barrier env _ k st
    (fun k1 st1 h => (refreshNoRetry_barrier env k1 st1).1 h)
    (fun k1 st1 h => (refreshNoRetry_barrier env k1 st1).2 h)

theorem applyOp_barrier_mono (op : ServiceOp) (st : ServiceState)
    (h : st.barrierOpen = true) : (applyOp op st).barrierOpen = true := by
  cases op with
  | refreshOp env k => exact (refreshNow_barrier env k st).1 h
  | barrierTimeoutOp => rfl
  | registerProviderOp e i p => exact h
  | disposeProviderOp i => exact h

theorem applyOps_barrier_mono (ops : List ServiceOp) (st : ServiceState)
    (h : st.barrierOpen = true) : (applyOps ops st).barrierOpen = true := by
  induction ops generalizing st with
  | nil => exact h
  | cons op rest ih => exact ih (applyOp op st) (applyOp_barrier_mono op st h)



theorem commitPhase_state_contributed (env : RefreshEnv)
    (profiles : List ITerminalProfile) (st : ServiceState)
    (events : List (List ITerminalProfile)) (k : Nat) :
    (commitPhase env profiles st events k).state.contributedProfiles =
      filteredContributedProfiles env := by
  rw [commitPhase_eq]
  split <;> rfl

theorem refreshStep_ok_contributed (env : RefreshEnv)
    (retry : Nat → ServiceState → RefreshOutcome) (k : Nat) (st : ServiceState) :
    (refreshStep env retry k st).result = Except.ok () →
    (refreshStep env retry k st).state.contributedProfiles =
      filteredContributedProfiles env := by
  unfold refreshStep
  cases hd : detectProfiles env k st with
  | mk res rest =>
    obtain ⟨st1, k1⟩ := rest
    cases res with
    | error e =>
      intro h
      simp at h
    | ok profiles =>
      by_cases hguard : (profiles.length == 0 && st1.ifNoProfilesTryAgain) = true
      · simp only [hguard, if_true]
        cases hr : (retry k1 { st1 with ifNoProfilesTryAgain := false }).result with
        | error e =>
          simp only [hr]
          intro h
          simp at h
        | ok u =>
          simp only [hr]
          intro _
          exact commitPhase_state_contributed env profiles _ _ _
      · simp only [Bool.not_eq_true] at hguard
        simp [hguard]
        intro _
        exact commitPhase_state_contributed env profiles _ _ _

theorem refreshNow_ok_contributed (env : RefreshEnv) (k : Nat) (st : ServiceState)
    (h : (refreshNow env k st).result = Except.ok ()) :
    (refreshNow env k st).state.contributedProfiles =
      filteredContributedProfiles env :=
  refreshStep_ok_contributed env (refreshNoRetry env) k st h

theorem mem_excluded_of_null (env : RefreshEnv) (title : String)
    (h : (title, ConfigEntryValue.nullVal) ∈ env.cfg.profilesFor (getPlatformKey env.host)) :
    title ∈ excludedContributedProfiles env := by
  unfold excludedContributedProfiles
  exact List.mem_map.mpr ⟨(title, ConfigEntryValue.nullVal),
    List.mem_filter.mpr ⟨h, rfl⟩, rfl⟩

theorem not_mem_filtered_of_excluded (env : RefreshEnv) (p : IExtensionTerminalProfile)
    (h : p.title ∈ excludedContributedProfiles env) :
    p ∉ filteredContributedProfiles env := by
  intro hp
  have hpred := (List.mem_filter.mp hp).2
  simp only [Bool.not_eq_true'] at hpred
  rw [List.contains_eq_any_beq] at hpred
  have hmem : ((excludedContributedProfiles env).any fun x => p.title == x) = true :=
    List.any_eq_true.mpr ⟨p.title, h, by simp⟩
  rw [hmem] at hpred
  cases hpred



/-- C1 (code-bug evidence): zero-result retry. The claim states that from a
fresh service, with a source returning `[]` on its first detection call and
`[ProfileA]` on its second, a single refresh cycle performs one extra
detection attempt, commits `[ProfileA]` as the snapshot, and fires exactly
one change event. Evaluating the embedded code on exactly that scenario
shows the cycle fires TWO events (`[ProfileA]`, then `[]`) and commits `[]`
as the final snapshot: after the inner retry commits `[ProfileA]`, the
outer invocation falls through (there is no early return after the awaited
recursive call), sees its own stale empty detection result differ from
`[ProfileA]`, overwrites the snapshot with `[]` and fires again —
defeating the purpose stated in the code comment of the retry block. -/
theorem c1_zero_result_retry_code_divergence :
    (refreshNow retryScenarioEnv 0 initialState).events = [[profileA], []] ∧
    (refreshNow retryScenarioEnv 0 initialState).state.availableProfiles =
      Option.some [] ∧
    (refreshNow retryScenarioEnv 0 initialState).result = Except.ok () := by
  decide

/-- C2 (confirmed): change-event iff change. First conjunct: for a refresh
cycle whose detection succeeds and which does not enter the one-shot retry
branch, the change event fires iff the freshly detected list or the freshly
filtered contributed list differs by structural equality from the previous
snapshot. Second conjunct: over an unchanged source (every detection call
returning the same list), a refresh cycle fires at most one event, and an
immediately following second cycle fires none. Equality is structural
(field values via `profilesEqual` / `contributedProfilesEqual`), so lists
differing only in object identity cannot fire an event. -/
theorem c2_change_event_iff_change :
    (∀ (env : RefreshEnv) (k : Nat) (st : ServiceState) (L : List ITerminalProfile),
      env.hasBackend = true → env.source k = Except.ok L →
      (L = [] → st.ifNoProfilesTryAgain = false) →
      ((refreshNow env k st).events ≠ [] ↔
        (optListEquals profilesEqual L st.availableProfiles = false ∨
         listEquals contributedProfilesEqual (filteredContributedProfiles env)
           st.contributedProfiles = false))) ∧
    (∀ (env : RefreshEnv) (k : Nat) (st : ServiceState) (L : List ITerminalProfile),
      env.hasBackend = true → (∀ j, env.source j = Except.ok L) →
      (refreshNow env k st).events.length ≤ 1 ∧
      (refreshNow env (refreshNow env k st).nextCall
        (refreshNow env k st).state).events = []) :=
  ⟨fun env k st L hb hs hnr => refresh_events_iff env k st L hb hs hnr,
   fun env k st L hb hsrc => refresh_second_cycle_quiet env k st L hb hsrc⟩

/-- Witness for C2 at a concrete environment and the fresh service state. -/
theorem c2_change_event_iff_change_witness :
    ((refreshNow constProfileEnv 0 initialState).events ≠ [] ↔
      (optListEquals profilesEqual [profileA] initialState.availableProfiles = false ∨
       listEquals contributedProfilesEqual (filteredContributedProfiles constProfileEnv)
         initialState.contributedProfiles = false)) ∧
    ((refreshNow constProfileEnv 0 initialState).events.length ≤ 1 ∧
     (refreshNow constProfileEnv (refreshNow constProfileEnv 0 initialState).nextCall
        (refreshNow constProfileEnv 0 initialState).state).events = []) :=
  ⟨(c2_change_event_iff_change).1 constProfileEnv 0 initialState [profileA] rfl rfl
      (fun h => absurd h (by decide)),
   (c2_change_event_iff_change).2 constProfileEnv 0 initialState [profileA] rfl
      (fun _ => rfl)⟩

/-- C3 (code-bug evidence): provider disposal. The claim states that
disposing the handle returned by `registerTerminalProfileProvider e i p`
removes exactly that registration. The disposal closure of the source
deletes from the OUTER providers map keyed by the INNER provider id:
after registering ("extA", "provB"), disposing leaves the registration in
place (the lookup still returns the provider), and when a different
extension is itself identified as "provB", disposing the ("extA", "provB")
handle deletes the registrations of that unrelated extension instead. -/
theorem c3_provider_disposal_code_divergence :
    getContributedProfileProvider "extA" "provB"
      (disposeProviderRegistration "provB"
        (registerTerminalProfileProvider "extA" "provB" 7 initialState)) =
      Option.some 7 ∧
    getContributedProfileProvider "provB" "provC"
      (disposeProviderRegistration "provB"
        (registerTerminalProfileProvider "extA" "provB" 7
          (registerTerminalProfileProvider "provB" "provC" 8 initialState))) =
      Option.none := by
  decide

/-- C4 (confirmed): readiness monotonicity. Once the readiness barrier is
open, no sequence of service operations (refresh cycles with arbitrary
sources and outcomes, the auto-open timeout, provider registration and
disposal) ever closes it; every refresh cycle that commits (fires at least
one change event) leaves the barrier open; and the bounded auto-open
timeout of the `AutoOpenBarrier` opens it independently of any refresh. -/
theorem c4_readiness_monotonic :
    (∀ (ops : List ServiceOp) (st : ServiceState),
      st.barrierOpen = true → (applyOps ops st).barrierOpen = true) ∧
    (∀ (env : RefreshEnv) (k : Nat) (st : ServiceState),
      (refreshNow env k st).events ≠ [] →
      (refreshNow env k st).state.barrierOpen = true) ∧
    (∀ st : ServiceState, (applyOp ServiceOp.barrierTimeoutOp st).barrierOpen = true) :=
  ⟨fun ops st h => applyOps_barrier_mono ops st h,
   fun env k st h => (refreshNow_barrier env k st).2 h,
   fun _ => rfl⟩

/-- Witness for C4 at concrete operations, environment and states. -/
theorem c4_readiness_monotonic_witness :
    (applyOps [ServiceOp.barrierTimeoutOp]
        { initialState with barrierOpen := true }).barrierOpen = true ∧
    (refreshNow constProfileEnv 0 initialState).state.barrierOpen = true ∧
    (applyOp ServiceOp.barrierTimeoutOp initialState).barrierOpen = true :=
  ⟨(c4_readiness_monotonic).1 [ServiceOp.barrierTimeoutOp]
      { initialState with barrierOpen := true } rfl,
   (c4_readiness_monotonic).2.1 constProfileEnv 0 initialState (by decide),
   (c4_readiness_monotonic).2.2 initialState⟩

/-- C5 (counterexample): the claim states that BOTH accessors trigger a
best-effort refresh before returning. The `contributedProfiles` getter of
the source invokes no refresh at all: called on the fresh service state it
returns with no refresh requested, while the `availableProfiles` getter
does request one. -/
theorem c5_contributed_accessor_counterexample :
    (contributedProfilesGet initialState).refreshRequested = false ∧
    (availableProfilesGet initialState).refreshRequested = true := by
  decide

/-- C5 (amended): every call to the `availableProfiles` accessor triggers
the throttled refresh entry point and returns the current snapshot
(`_availableProfiles || []`, unaffected by the just-triggered asynchronous
refresh); the `contributedProfiles` accessor returns the current snapshot
directly, without triggering any refresh. -/
theorem c5_accessor_side_effect_amended :
    ∀ st : ServiceState,
      (availableProfilesGet st).refreshRequested = true ∧
      (availableProfilesGet st).value = st.availableProfiles.getD [] ∧
      (contributedProfilesGet st).refreshRequested = false ∧
      (contributedProfilesGet st).value = st.contributedProfiles :=
  fun _ => ⟨rfl, rfl, rfl, rfl⟩

/-- C6 (counterexample): the claim states `getDefaultProfileName` raises
iff no default profile name has been stored by a detection pass. With the
platform default configured as the empty string, a completed refresh stores
`some ""` as the resolved default — a detection pass has stored a name —
yet `getDefaultProfileName` still raises, because the source tests
JavaScript truthiness and `""` is falsy. -/
theorem c6_empty_default_name_counterexample :
    (refreshNow emptyDefaultEnv 0 initialState).state.defaultProfileName =
      Option.some "" ∧
    getDefaultProfileName (refreshNow emptyDefaultEnv 0 initialState).state =
      Except.error "no default profile" := by
  decide

/-- C6 (amended): `getDefaultProfileName` raises the no-default-profile
error iff the stored default name is falsy (absent or the empty string);
otherwise it returns the stored name. The accessor is a pure function of
the state in this embedding, so it leaves all state unchanged. -/
theorem c6_no_default_profile_amended :
    ∀ st : ServiceState,
      (getDefaultProfileName st = Except.error "no default profile" ↔
        jsFalsyStr st.defaultProfileName = true) ∧
      (∀ s, st.defaultProfileName = Option.some s → s ≠ "" →
        getDefaultProfileName st = Except.ok s) := by
  intro st
  constructor
  · unfold getDefaultProfileName
    by_cases h : jsFalsyStr st.defaultProfileName = true
    · simp [h]
    · simp only [Bool.not_eq_true] at h
      simp [h]
  · intro s hs hne
    unfold getDefaultProfileName
    rw [hs]
    simp [jsFalsyStr, hne]

/-- Witness for C6 (amended) at a concrete state storing "zsh". -/
theorem c6_no_default_profile_amended_witness :
    (getDefaultProfileName { initialState with defaultProfileName := Option.some "zsh" } =
        Except.error "no default profile" ↔
      jsFalsyStr (Option.some "zsh") = true) ∧
    getDefaultProfileName { initialState with defaultProfileName := Option.some "zsh" } =
      Except.ok "zsh" :=
  ⟨(c6_no_default_profile_amended
      { initialState with defaultProfileName := Option.some "zsh" }).1,
   (c6_no_default_profile_amended
      { initialState with defaultProfileName := Option.some "zsh" }).2 "zsh" rfl
      (by decide)⟩

/-- C7 (confirmed): contributed default guard. For every launch config,
`getContributedDefaultProfile` returns the contributed profile whose title
strictly equals the configured default-profile name for the current
platform key exactly when the config carries no `executable` property and
no truthy extension-host correlation id; in every other case it returns
none. Includes the concrete scenario: platform key linux, configured
default "bash", contributed profile titled "bash": the empty launch config
yields the "bash" descriptor and a config with an executable yields none. -/
theorem c7_contributed_default_guard :
    (∀ (cfg : ConfigStore) (host : HostEnv) (st : ServiceState)
        (slc : IShellLaunchConfig) (p : IExtensionTerminalProfile),
      getContributedDefaultProfile cfg host st slc = Option.some p ↔
        (slc.executable = Option.none ∧ jsFalsyStr slc.extHostTerminalId = true ∧
         st.contributedProfiles.find?
           (fun q => (Option.some q.title : Option String) ==
             cfg.defaultProfileFor (getPlatformKey host)) = Option.some p)) ∧
    getContributedDefaultProfile bashDefaultConfig linuxHost contributedBashState
      {} = Option.some bashContributed ∧
    getContributedDefaultProfile bashDefaultConfig linuxHost contributedBashState
      { executable := Option.some "/bin/zsh" } = Option.none := by
  refine ⟨?_, by decide, by decide⟩
  intro cfg host st slc p
  unfold getContributedDefaultProfile
  by_cases h1 : jsFalsyStr slc.extHostTerminalId = true
  · by_cases h2 : slc.executable = Option.none
    · simp [h1, h2]
    · simp [h1, h2, Option.isNone_iff_eq_none]
  · simp only [Bool.not_eq_true] at h1
    simp [h1]

/-- Witness for C7 at the concrete linux/bash scenario. -/
theorem c7_contributed_default_guard_witness :
    getContributedDefaultProfile bashDefaultConfig linuxHost contributedBashState {} =
        Option.some bashContributed ↔
      (({} : IShellLaunchConfig).executable = Option.none ∧
       jsFalsyStr ({} : IShellLaunchConfig).extHostTerminalId = true ∧
       contributedBashState.contributedProfiles.find?
         (fun q => (Option.some q.title : Option String) ==
           bashDefaultConfig.defaultProfileFor (getPlatformKey linuxHost)) =
         Option.some bashContributed) :=
  (c7_contributed_default_guard).1 bashDefaultConfig linuxHost contributedBashState
    {} bashContributed

/-- C8 (confirmed): excluded contributed profile. If the configuration
value stored under the title of a registry-declared profile in the
platform-keyed profiles section is null, that profile is absent from the
contributed list after any refresh cycle that completes without error, and
after any `_updateContributedProfiles` pass, even though the contribution
registry still declares it. -/
theorem c8_excluded_contributed_profile :
    ∀ (env : RefreshEnv) (k : Nat) (st : ServiceState) (title : String)
      (p : IExtensionTerminalProfile),
      (title, ConfigEntryValue.nullVal) ∈ env.cfg.profilesFor (getPlatformKey env.host) →
      p ∈ env.registry → p.title = title →
      ((refreshNow env k st).result = Except.ok () →
        p ∉ (refreshNow env k st).state.contributedProfiles) ∧
      p ∉ (updateContributedProfiles env st).2.contributedProfiles := by
  intro env k st title p hnull hreg htitle
  have hex : p ∉ filteredContributedProfiles env :=
    not_mem_filtered_of_excluded env p (htitle ▸ mem_excluded_of_null env title hnull)
  constructor
  · intro hok
    rw [refreshNow_ok_contributed env k st hok]
    exact hex
  · exact hex

/-- Witness for C8: registry declares the "bash" contributed profile while
configuration nulls the "bash" entry. -/
theorem c8_excluded_contributed_profile_witness :
    ((refreshNow excludedEnv 0 initialState).result = Except.ok () →
      bashContributed ∉ (refreshNow excludedEnv 0 initialState).state.contributedProfiles) ∧
    bashContributed ∉ (updateContributedProfiles excludedEnv initialState).2.contributedProfiles :=
  c8_excluded_contributed_profile excludedEnv 0 initialState "bash" bashContributed
    (by decide) (by decide) rfl

/-- C9 (counterexample): the claim states a failing detection leaves the
service state in its last-known-good form. Two refutations of that at
concrete inputs. First: `_detectProfiles` re-reads `_defaultProfileName`
from configuration BEFORE the failing external call, so with stored
default "old" and configured default "new" a failing refresh propagates
the error yet leaves the resolved default changed to "new". Second: when
the first detection call returns the empty list, the one-shot retry flag
is cleared BEFORE the retry whose detection then fails, so the error
propagates with the flag permanently consumed (true before, false after). -/
theorem c9_detection_failure_counterexample :
    ((refreshNow failingEnv 0 staleDefaultState).result = Except.error "boom" ∧
     (refreshNow failingEnv 0 staleDefaultState).state.defaultProfileName =
       Option.some "new" ∧
     staleDefaultState.defaultProfileName = Option.some "old") ∧
    ((refreshNow retryFailEnv 0 initialState).result = Except.error "boom" ∧
     (refreshNow retryFailEnv 0 initialState).state.ifNoProfilesTryAgain = false ∧
     initialState.ifNoProfilesTryAgain = true) := by
  decide

/-- C9 (amended): every refresh cycle that ends in an error propagates,
verbatim and unwrapped, exactly the error raised by the source on the
first detection call or on the retry call that follows an empty first
result; no change event fires, and the available-profiles snapshot, the
contributed-profiles list, the provider registrations, the readiness
barrier and the web context key remain exactly as before the refresh.
Two parts of the state do change: the resolved default-profile name has
already been re-read from configuration before the failing call, and the
one-shot retry flag — unchanged when the first detection call fails — has
been consumed (cleared) when the failure occurred on the retry attempt. -/
theorem c9_detection_failure_amended :
    ∀ (env : RefreshEnv) (k : Nat) (st : ServiceState) (e : String),
      (refreshNow env k st).result = Except.error e →
      (env.source k = Except.error e ∨
        (env.source k = Except.ok [] ∧ st.ifNoProfilesTryAgain = true ∧
         env.source (k + 1) = Except.error e)) ∧
      (refreshNow env k st).events = [] ∧
      (refreshNow env k st).state.availableProfiles = st.availableProfiles ∧
      (refreshNow env k st).state.contributedProfiles = st.contributedProfiles ∧
      (refreshNow env k st).state.profileProviders = st.profileProviders ∧
      (refreshNow env k st).state.barrierOpen = st.barrierOpen ∧
      (refreshNow env k st).state.webContextKey = st.webContextKey ∧
      (refreshNow env k st).state.defaultProfileName =
        env.cfg.defaultProfileFor (getPlatformKey env.host) ∧
      ((env.source k = Except.error e →
        (refreshNow env k st).state.ifNoProfilesTryAgain = st.ifNoProfilesTryAgain) ∧
       (env.source k = Except.ok [] →
        (refreshNow env k st).state.ifNoProfilesTryAgain = false)) := by
  intro env k st e herr
  by_cases hb : env.hasBackend = true
  · cases hs : env.source k with
    | error e0 =>
      rw [refreshNow_detect_error env k st e0 hb hs] at herr
      simp only [Except.error.injEq] at herr
      subst herr
      rw [refreshNow_detect_error env k st e0 hb hs]
      exact ⟨Or.inl rfl, rfl, rfl, rfl, rfl, rfl, rfl, rfl,
        fun _ => rfl, fun hok => Except.noConfusion hok⟩
    | ok L =>
      by_cases hretry : L = [] ∧ st.ifNoProfilesTryAgain = true
      · obtain ⟨hL, hflag⟩ := hretry
        subst hL
        cases hs1 : env.source (k + 1) with
        | error e1 =>
          rw [refreshNow_retry_error env k st e1 hb hs hflag hs1] at herr
          simp only [Except.error.injEq] at herr
          subst herr
          rw [refreshNow_retry_error env k st e1 hb hs hflag hs1]
          exact ⟨Or.inr ⟨rfl, hflag, rfl⟩, rfl, rfl, rfl, rfl, rfl, rfl, rfl,
            fun habs => Except.noConfusion habs, fun _ => rfl⟩
        | ok L1 =>
          rw [refreshNow_retry env k st hb hs hflag,
              refreshNoRetry_ok env (k + 1) _ L1 hb hs1 rfl] at herr
          simp [commitPhase_result] at herr
      · have hnr : L = [] → st.ifNoProfilesTryAgain = false := by
          intro hL
          cases hfl : st.ifNoProfilesTryAgain with
          | false => rfl
          | true => exact absurd ⟨hL, hfl⟩ hretry
        rw [refreshNow_no_retry env k st L hb hs hnr] at herr
        simp [commitPhase_result] at herr
  · simp only [Bool.not_eq_true] at hb
    rw [refreshNow_no_backend_ok env k st hb] at herr
    cases herr

/-- Witness for C9 (amended) at the concrete first-call-failure
environment, with every definition evaluated. -/
theorem c9_detection_failure_amended_witness :
    (failingEnv.source 0 = Except.error "boom" ∨
      (failingEnv.source 0 = Except.ok [] ∧
       staleDefaultState.ifNoProfilesTryAgain = true ∧
       failingEnv.source 1 = Except.error "boom")) ∧
    (refreshNow failingEnv 0 staleDefaultState).events = [] ∧
    (refreshNow failingEnv 0 staleDefaultState).state.availableProfiles =
      staleDefaultState.availableProfiles ∧
    (refreshNow failingEnv 0 staleDefaultState).state.contributedProfiles =
      staleDefaultState.contributedProfiles ∧
    (refreshNow failingEnv 0 staleDefaultState).state.profileProviders =
      staleDefaultState.profileProviders ∧
    (refreshNow failingEnv 0 staleDefaultState).state.barrierOpen =
      staleDefaultState.barrierOpen ∧
    (refreshNow failingEnv 0 staleDefaultState).state.webContextKey =
      staleDefaultState.webContextKey ∧
    (refreshNow failingEnv 0 staleDefaultState).state.defaultProfileName =
      failingEnv.cfg.defaultProfileFor (getPlatformKey failingEnv.host) ∧
    ((failingEnv.source 0 = Except.error "boom" →
      (refreshNow failingEnv 0 staleDefaultState).state.ifNoProfilesTryAgain =
        staleDefaultState.ifNoProfilesTryAgain) ∧
     (failingEnv.source 0 = Except.ok [] →
      (refreshNow failingEnv 0 staleDefaultState).state.ifNoProfilesTryAgain =
        false)) :=
  c9_detection_failure_amended failingEnv 0 staleDefaultState "boom" (by decide)

/-- C10 (confirmed): accessors are total. Both accessors always return a
list value: when no snapshot has been committed yet (`_availableProfiles`
still undefined) the `availableProfiles` getter returns `[]` through the
`|| []` fallback; in general the getters return the stored snapshots; and
on the fresh constructor state both return the empty list. -/
theorem c10_accessors_total :
    (∀ st : ServiceState, st.availableProfiles = Option.none →
      (availableProfilesGet st).value = []) ∧
    (∀ st : ServiceState,
      (availableProfilesGet st).value = st.availableProfiles.getD [] ∧
      (contributedProfilesGet st).value = st.contributedProfiles) ∧
    (availableProfilesGet initialState).value = [] ∧
    (contributedProfilesGet initialState).value = [] := by
  refine ⟨?_, fun _ => ⟨rfl, rfl⟩, rfl, rfl⟩
  intro st h
  simp [availableProfilesGet, h]

/-- Witness for C10 at the fresh constructor state. -/
theorem c10_accessors_total_witness :
    (availableProfilesGet initialState).value = [] :=
  (c10_accessors_total).1 initialState rfl

end TerminalProfileService
